import Mathlib

set_option maxRecDepth 100000
set_option maxHeartbeats 1000000

/-!
Verification of the Early-Alert news-triage pipeline.

The development shallowly embeds the two implementations of the pipeline
(`src/early_warning_system.py`, the linear per-item script, and
`src/main.py`, the four-node staged workflow).  The language model is an
external collaborator and is modelled as an oracle from prompt strings to
`Except Unit String` (`Except.error` models the client raising).  Python
values produced by `json.loads` are modelled by the type `Py`, with
Python `None` and JSON `null` identified, exactly as in CPython.
-/

/-- Model of the Python values that `json.loads` can return.  `Py.none`
models Python `None` (which is also what JSON `null` decodes to).  Float
literals keep their source text: the pipeline only ever asks whether a
value is truthy or formats it into a prompt, so the literal is enough. -/
inductive Py where
  | none : Py
  | bool : Bool → Py
  | int : Int → Py
  | float : String → Py
  | str : String → Py
  | list : List Py → Py
  | dict : List (String × Py) → Py

/-- `d.get(k)` on a parsed JSON object: `None` when the key is absent, and
the *last* binding when the source object repeated a key, matching
`json.loads` (later duplicate keys overwrite earlier ones). -/
def dictGet (kvs : List (String × Py)) (k : String) : Py :=
  kvs.foldl (fun acc kv => if kv.1 = k then kv.2 else acc) Py.none

/-- Truthiness of a float literal: Python's `float` is falsy exactly when
it is zero, i.e. when the mantissa of the literal has no nonzero digit. -/
def floatTruthy (lit : String) : Bool :=
  (lit.toList.takeWhile (fun c => c ≠ 'e' ∧ c ≠ 'E')).any
    (fun c => c.isDigit && c ≠ '0')

/-- Python truthiness (`bool(x)`) for the values the pipeline inspects. -/
def Py.truthy : Py → Bool
  | Py.none => false
  | Py.bool b => b
  | Py.int n => n != 0
  | Py.float lit => floatTruthy lit
  | Py.str s => s != ""
  | Py.list xs => !xs.isEmpty
  | Py.dict kvs => !kvs.isEmpty

/-- JSON inter-token whitespace accepted by `json.loads`. -/
def jWs (c : Char) : Bool :=
  c = ' ' || c = '\t' || c = '\n' || c = '\r'

def skipWs : List Char → List Char
  | [] => []
  | c :: cs => if jWs c then skipWs cs else c :: cs

/-- Single-character JSON string escapes. -/
def escChar : Char → Option Char
  | '"' => some '"'
  | '\\' => some '\\'
  | '/' => some '/'
  | 'b' => some '\x08'
  | 'f' => some '\x0c'
  | 'n' => some '\n'
  | 'r' => some '\r'
  | 't' => some '\t'
  | _ => Option.none

def hexVal (c : Char) : Option Nat :=
  if '0' ≤ c ∧ c ≤ '9' then some (c.toNat - '0'.toNat)
  else if 'a' ≤ c ∧ c ≤ 'f' then some (c.toNat - 'a'.toNat + 10)
  else if 'A' ≤ c ∧ c ≤ 'F' then some (c.toNat - 'A'.toNat + 10)
  else Option.none

/-- Body of a JSON string after the opening quote; strict mode rejects
raw control characters, as `json.loads` does by default. -/
def pStrChars : List Char → Option (List Char × List Char)
  | [] => Option.none
  | c :: cs =>
    if c = '"' then some ([], cs)
    else if c = '\\' then
      match cs with
      | 'u' :: h1 :: h2 :: h3 :: h4 :: cs2 =>
        match hexVal h1, hexVal h2, hexVal h3, hexVal h4 with
        | some a, some b, some c3, some d =>
          (pStrChars cs2).map
            (fun r => (Char.ofNat (((a * 16 + b) * 16 + c3) * 16 + d) :: r.1, r.2))
        | _, _, _, _ => Option.none
      | e :: cs2 =>
        match escChar e with
        | some ec => (pStrChars cs2).map (fun r => (ec :: r.1, r.2))
        | Option.none => Option.none
      | [] => Option.none
    else if c.toNat < 32 then Option.none
    else (pStrChars cs).map (fun r => (c :: r.1, r.2))

def spanDigits (cs : List Char) : List Char × List Char :=
  (cs.takeWhile Char.isDigit, cs.dropWhile Char.isDigit)

def natOfDigits (ds : List Char) : Nat :=
  ds.foldl (fun n c => n * 10 + (c.toNat - '0'.toNat)) 0

/-- Exponent part of a JSON number; `intDs`/`fracDs` are the consumed
integer and fractional digits, used to rebuild the literal for floats. -/
def pExpPart (sgn : Bool) (intDs : List Char) (fracDs : Option (List Char)) :
    List Char → Option (Py × List Char)
  | e :: r =>
    if e = 'e' ∨ e = 'E' then
      let (esgnChars, r1) : List Char × List Char :=
        match r with
        | '+' :: rr => (['+'], rr)
        | '-' :: rr => (['-'], rr)
        | _ => ([], r)
      let (eds, r2) := spanDigits r1
      if eds.isEmpty then Option.none
      else
        let lit := (if sgn then ['-'] else []) ++ intDs ++
          (match fracDs with | some ds => '.' :: ds | Option.none => []) ++
          e :: esgnChars ++ eds
        some (Py.float (String.mk lit), r2)
    else
      match fracDs with
      | some ds =>
        some (Py.float (String.mk ((if sgn then ['-'] else []) ++ intDs ++ '.' :: ds)),
          e :: r)
      | Option.none =>
        some (Py.int ((if sgn then -1 else 1) * (natOfDigits intDs : Int)), e :: r)
  | [] =>
    match fracDs with
    | some ds =>
      some (Py.float (String.mk ((if sgn then ['-'] else []) ++ intDs ++ '.' :: ds)), [])
    | Option.none =>
      some (Py.int ((if sgn then -1 else 1) * (natOfDigits intDs : Int)), [])

/-- JSON number, with the strict grammar `json.loads` uses:
`-? (0 | [1-9][0-9]*) ('.' [0-9]+)? ([eE][+-]?[0-9]+)?`. -/
def pNumber (cs : List Char) : Option (Py × List Char) :=
  let (sgn, cs1) : Bool × List Char :=
    match cs with
    | '-' :: r => (true, r)
    | _ => (false, cs)
  match cs1 with
  | c :: r =>
    if c = '0' then pAfterInt sgn ['0'] r
    else if c.isDigit then
      let (ds, r2) := spanDigits r
      pAfterInt sgn (c :: ds) r2
    else Option.none
  | [] => Option.none
where
  pAfterInt (sgn : Bool) (intDs : List Char) (rest : List Char) :
      Option (Py × List Char) :=
    match rest with
    | '.' :: r =>
      let (ds, r2) := spanDigits r
      if ds.isEmpty then Option.none else pExpPart sgn intDs (some ds) r2
    | _ => pExpPart sgn intDs Option.none rest

mutual

/-- Recursive-descent JSON value parser; the fuel argument bounds the
recursion depth and is chosen large enough for every input. -/
def pVal : Nat → List Char → Option (Py × List Char)
  | 0, _ => Option.none
  | f + 1, cs =>
    match skipWs cs with
    | [] => Option.none
    | c :: rest =>
      if c = '"' then
        match pStrChars rest with
        | some (s, r) => some (Py.str (String.mk s), r)
        | Option.none => Option.none
      else if c = '\x7b' then pObjBody f rest
      else if c = '[' then pArrBody f rest
      else if c = 't' then
        match rest with
        | 'r' :: 'u' :: 'e' :: r => some (Py.bool true, r)
        | _ => Option.none
      else if c = 'f' then
        match rest with
        | 'a' :: 'l' :: 's' :: 'e' :: r => some (Py.bool false, r)
        | _ => Option.none
      else if c = 'n' then
        match rest with
        | 'u' :: 'l' :: 'l' :: r => some (Py.none, r)
        | _ => Option.none
      else pNumber (c :: rest)

def pObjBody : Nat → List Char → Option (Py × List Char)
  | 0, _ => Option.none
  | f + 1, cs =>
    match skipWs cs with
    | '\x7d' :: r => some (Py.dict [], r)
    | rest => pMembers f rest []

def pMembers : Nat → List Char → List (String × Py) → Option (Py × List Char)
  | 0, _, _ => Option.none
  | f + 1, cs, acc =>
    match cs with
    | '"' :: r =>
      match pStrChars r with
      | some (kcs, r2) =>
        match skipWs r2 with
        | ':' :: r3 =>
          match pVal f r3 with
          | some (v, r4) =>
            match skipWs r4 with
            | ',' :: r5 => pMembers f (skipWs r5) (acc ++ [(String.mk kcs, v)])
            | '\x7d' :: r5 => some (Py.dict (acc ++ [(String.mk kcs, v)]), r5)
            | _ => Option.none
          | Option.none => Option.none
        | _ => Option.none
      | Option.none => Option.none
    | _ => Option.none

def pArrBody : Nat → List Char → Option (Py × List Char)
  | 0, _ => Option.none
  | f + 1, cs =>
    match skipWs cs with
    | ']' :: r => some (Py.list [], r)
    | rest => pElems f rest []

def pElems : Nat → List Char → List Py → Option (Py × List Char)
  | 0, _, _ => Option.none
  | f + 1, cs, acc =>
    match pVal f cs with
    | some (v, r) =>
      match skipWs r with
      | ',' :: r2 => pElems f r2 (acc ++ [v])
      | ']' :: r2 => some (Py.list (acc ++ [v]), r2)
      | _ => Option.none
    | Option.none => Option.none

end

/-- Model of `json.loads`: parse one value, then allow only trailing
whitespace ("Extra data" is a decode error).  `Option.none` models
`json.JSONDecodeError`. -/
def jsonDecode (s : String) : Option Py :=
  match pVal (2 * s.length + 8) s.toList with
  | some (v, r) => if (skipWs r).isEmpty then some v else Option.none
  | Option.none => Option.none

example : jsonDecode ("true") = some (Py.bool true) := by rfl
example : jsonDecode ("null") = some Py.none := by rfl
example : jsonDecode ("[1, 2]") = some (Py.list [Py.int 1, Py.int 2]) := by rfl
example : jsonDecode ("not json") = Option.none := by rfl
example : jsonDecode ("\x7b\"a\": \"b\"\x7d") = some (Py.dict [("a", Py.str "b")]) := by rfl
example : jsonDecode ("") = Option.none := by rfl
example : jsonDecode ("-12") = some (Py.int (-12)) := by rfl
example : jsonDecode ("1.5") = some (Py.float "1.5") := by rfl
example : jsonDecode ("01") = Option.none := by rfl
example : jsonDecode ("[[[1]]]") = some (Py.list [Py.list [Py.list [Py.int 1]]]) := by rfl

/-- Python `str.replace(pat, rep)`: replace every non-overlapping
occurrence, scanning left to right.  Fuel is the length of the scanned
list; every step consumes at least one character. -/
def replChars (fuel : Nat) (cs pat rep : List Char) : List Char :=
  match fuel, cs with
  | 0, cs => cs
  | _ + 1, [] => []
  | f + 1, c :: rest =>
    if !pat.isEmpty && pat.isPrefixOf (c :: rest) then
      rep ++ replChars f ((c :: rest).drop pat.length) pat rep
    else c :: replChars f rest pat rep

def strReplace (s pat rep : String) : String :=
  String.mk (replChars s.length s.toList pat.toList rep.toList)

/-- ASCII whitespace removed by Python `str.strip()`. -/
def pyWs (c : Char) : Bool :=
  c = ' ' || c = '\t' || c = '\n' || c = '\r' || c = '\x0b' || c = '\x0c'

def pyStrip (s : String) : String :=
  String.mk (((s.toList.dropWhile pyWs).reverse.dropWhile pyWs).reverse)

/-- The preprocessing done by `parse_json_response`:
`response_text.replace("```json", "").replace("```", "").strip()`. -/
def cleanResponse (s : String) : String :=
  pyStrip (strReplace (strReplace s ("```json") ("")) ("```") (""))

/-- `parse_json_response` from `early_warning_system.py`: strip Markdown
code-fence markers, strip whitespace, `json.loads`; on
`json.JSONDecodeError` return `None`.  Because JSON `null` also decodes
to Python `None`, both outcomes are the same value `Py.none`. -/
def parse_json_response (response_text : String) : Py :=
  match jsonDecode (cleanResponse response_text) with
  | some v => v
  | Option.none => Py.none

example : parse_json_response ("```json\n\x7b\"is_relevant\": true\x7d\n```")
    = Py.dict [("is_relevant", Py.bool true)] := by rfl
example : parse_json_response ("not json") = Py.none := by rfl
example : parse_json_response ("") = Py.none := by rfl

mutual

/-- Python `repr` for the values above (escaping inside rendered string
elements is approximated): used only when a non-string `risk_type` is
interpolated into the summary prompt. -/
def pyRepr : Py → String
  | Py.none => "None"
  | Py.bool true => "True"
  | Py.bool false => "False"
  | Py.int n => toString n
  | Py.float lit => lit
  | Py.str s => "'" ++ s ++ "'"
  | Py.list xs => "[" ++ pyReprList xs ++ "]"
  | Py.dict kvs => "\x7b" ++ pyReprKvs kvs ++ "\x7d"

def pyReprList : List Py → String
  | [] => ""
  | [x] => pyRepr x
  | x :: y :: xs => pyRepr x ++ ", " ++ pyReprList (y :: xs)

def pyReprKvs : List (String × Py) → String
  | [] => ""
  | [kv] => "'" ++ kv.1 ++ "': " ++ pyRepr kv.2
  | kv :: kv2 :: kvs =>
    "'" ++ kv.1 ++ "': " ++ pyRepr kv.2 ++ ", " ++ pyReprKvs (kv2 :: kvs)

end

/-- Python `str(x)`: the string itself for strings, `repr`-style
rendering otherwise (as in `str.format` interpolation). -/
def pyStr : Py → String
  | Py.str s => s
  | p => pyRepr p

example : pyStr (Py.str "Market Risk") = "Market Risk" := by rfl
example : pyStr Py.none = "None" := by rfl

/-- Python `pat in s` substring test. -/
def containsSub (s pat : String) : Bool :=
  (List.range (s.toList.length + 1)).any
    (fun i => pat.toList.isPrefixOf (s.toList.drop i))

/-- Python `str.lower()` (ASCII; the gate patterns are ASCII). -/
def pyLower (s : String) : String := String.mk (s.toList.map Char.toLower)

example : containsSub ("say \"is_relevant\": true now") ("\"is_relevant\": true") = true := by rfl
example : containsSub ("ab") ("abc") = false := by rfl

/-- An article record as both scripts consume it: `title`,
`description` (possibly absent), `url`, and the source name. -/
structure Article where
  title : String
  description : Option String
  url : String
  source_name : Option String

/-- `article.get('description') or headline`: the description, unless it
is missing or empty, in which case the title. -/
def contentOf (a : Article) : String :=
  match a.description with
  | some d => if d = "" then a.title else d
  | Option.none => a.title

/-- The Mock Data fixture of `early_warning_system.fetch_news`. -/
def mockNews : List Article :=
  [⟨"Central Bank announces surprise 0.5% interest rate hike due to inflation fears",
    some "The monetary policy committee decided to raise rates immediately. Markets are tumbling.",
    "http://test-news.com/1", some "Global Finance"⟩,
   ⟨"New iPhone 16 features leaked ahead of launch",
    some "Apple's new phone will feature a better camera and AI capabilities.",
    "http://test-news.com/2", some "Tech Daily"⟩,
   ⟨"Major Real Estate Developer files for bankruptcy protection",
    some "One of the largest developers has defaulted on its $5B debt obligations.",
    "http://test-news.com/3", some "Biz Insider"⟩]

/-- The Mock Data fixture of `main.fetch_news_node`. -/
def wfMockNews : List Article :=
  [⟨"Central Bank hikes rates by 0.75%", some "Inflation control measures...",
    "http://test.com/1", Option.none⟩,
   ⟨"New K-Pop star debut", some "Entertainment news...",
    "http://test.com/2", Option.none⟩]

/-- `fetch_news` of the linear script.  The news API call is an external
collaborator, modelled as `Except Unit (List Article)` (`error` = the
call raised).  The fixture is returned both when the call raises and
when it succeeds with an empty article list. -/
def fetch_news (api : Except Unit (List Article)) : List Article :=
  match api with
  | Except.ok arts => if arts.isEmpty then mockNews else arts
  | Except.error _ => mockNews

/-- Which template built a prompt (bookkeeping on trace events; the
formatted prompt string itself is carried alongside). -/
inductive Stage where
  | filterStep : Stage
  | analyzeStep : Stage
  | summaryStep : Stage
  | wfFilterStep : Stage
  | wfAnalyzeStep : Stage
  | wfWriterStep : Stage
deriving DecidableEq

/-- Observable actions of a run: an attempted completion-client
invocation (recorded whether or not the client raises) and a delivered
alert email. -/
inductive Event where
  | llmCall : Stage → String → Event
  | email : String → String → Event
deriving DecidableEq

/-- The completion client: prompt string to completion string, or
`error` when `llm.invoke` raises. -/
def Oracle : Type := String → Except Unit String

/-- `filter_prompt.format(headline=...)` of the linear script
(`{{`/`}}` in the Python template render as literal braces). -/
def filter_prompt_format (headline : String) : String :=
  "\nYou are a Financial News Filter. Analyze the headline below.\n" ++
  "Determine if it is potentially related to 'Credit Risk', 'Market Risk', 'Macroeconomics', or 'Banking'.\n" ++
  "Ignore sports, entertainment, and general crimes.\n\nHeadline: \"" ++ headline ++
  "\"\n\nReturn ONLY a JSON object strictly in this format:\n" ++
  "\x7b\"is_relevant\": true, \"reason\": \"reason\"\x7d\nor\n" ++
  "\x7b\"is_relevant\": false, \"reason\": \"reason\"\x7d\n"

/-- `analysis_prompt.format(headline=..., content=...)` of the linear script. -/
def analysis_prompt_format (headline content : String) : String :=
  "\nYou are a Senior Risk Analyst. Analyze this news for potential impact on a commercial bank.\n\nHeadline: \"" ++
  headline ++ "\"\nContent Snippet: \"" ++ content ++
  "\"\n\nAnalyze step-by-step:\n1. Is this a Market Risk (interest rates, FX, stocks)?\n" ++
  "2. Is this a Credit Risk (bankruptcy, debt crisis)?\n3. Is the impact High or Medium?\n\n" ++
  "Return ONLY a JSON object strictly in this format:\n\x7b\n" ++
  "  \"risk_type\": \"Market Risk\" or \"Credit Risk\" or \"None\",\n" ++
  "  \"impact_level\": \"High\" or \"Medium\" or \"Low\",\n" ++
  "  \"send_alert\": true or false\n\x7d\n" ++
  "(Set 'send_alert' to true ONLY if impact is High or Medium)\n"

/-- `summary_prompt.format(headline=..., content=..., risk_type=...)` of
the linear script; `risk_type` arrives already rendered by `str()`. -/
def summary_prompt_format (headline content risk_type : String) : String :=
  "\nYou are an AI Executive Assistant.\nSummarize the following financial news into a Korean briefing format.\n\nHeadline: \"" ++
  headline ++ "\"\nContent: \"" ++ content ++
  "\"\n\nOutput strictly in Korean(한국어) in this format:\n\n**[긴급] " ++ risk_type ++
  " 조기 경보**\n* **헤드라인:** (Korean Translation)\n* **핵심 요약:**\n  - (Point 1)\n  - (Point 2)\n" ++
  "* **리스크 요인:** (One sentence summary of the threat)\n"

/-- Gate of the linear Filter step, as the orchestrator evaluates it:
`if not filter_data or not filter_data.get('is_relevant')` inside a
`try`.  A falsy parse result is skipped; a truthy non-dict raises
`AttributeError` on `.get`, which the surrounding `except` turns into a
skip; a truthy dict continues iff `is_relevant` is truthy. -/
def filterAccepts (p : Py) : Bool :=
  if p.truthy = false then false
  else
    match p with
    | Py.dict kvs => (dictGet kvs ("is_relevant")).truthy
    | _ => false

/-- Gate of the linear Analyze step:
`if not risk_data or not risk_data.get('send_alert')`, with the same
exception behavior as the Filter gate.  Note that `impact_level` is not
consulted. -/
def analyzeAccepts (p : Py) : Bool :=
  if p.truthy = false then false
  else
    match p with
    | Py.dict kvs => (dictGet kvs ("send_alert")).truthy
    | _ => false

/-- `risk_data.get(k)` once `risk_data` is known to be a dict. -/
def pyGetD : Py → String → Py
  | Py.dict kvs, k => dictGet kvs k
  | _, _ => Py.none

/-- One iteration of the linear script's article loop: Step 1 filter,
Step 2 analysis, Step 3 summary and email, each in its own
`try`/`except` that skips to the next article (for Step 3, falls off
the end of the loop body).  Returns the trace of client invocations and
emails for this article. -/
def processArticle (o : Oracle) (a : Article) : List Event :=
  let fp := filter_prompt_format a.title
  let fcall := [Event.llmCall Stage.filterStep fp]
  match o fp with
  | Except.error _ => fcall
  | Except.ok fraw =>
    if filterAccepts (parse_json_response fraw) = false then fcall
    else
      let ap := analysis_prompt_format a.title (contentOf a)
      let acalls := fcall ++ [Event.llmCall Stage.analyzeStep ap]
      match o ap with
      | Except.error _ => acalls
      | Except.ok araw =>
        let rd := parse_json_response araw
        if analyzeAccepts rd = false then acalls
        else
          let rt := pyStr (pyGetD rd ("risk_type"))
          let sp := summary_prompt_format a.title (contentOf a) rt
          let scalls := acalls ++ [Event.llmCall Stage.summaryStep sp]
          match o sp with
          | Except.error _ => scalls
          | Except.ok summary_res =>
            scalls ++ [Event.email ("[Risk Alert] " ++ rt ++ " Detected")
              (summary_res ++ "\n\n[Original Source]: " ++ a.url)]

/-- The linear script's `for article in articles` loop. -/
def runList (o : Oracle) : List Article → List Event
  | [] => []
  | a :: rest => processArticle o a ++ runList o rest

/-- `run_early_warning_system`: fetch articles (with fixture fallback),
then process each article in order. -/
def run_early_warning_system (o : Oracle) (api : Except Unit (List Article)) :
    List Event :=
  runList o (fetch_news api)

/-- The LangGraph `AgentState` of `main.py`.  `final_email_body` is
`Option.none` while the (initially absent) key has not been written. -/
structure AgentState where
  raw_headlines : List Article
  relevant_news : List Article
  analyzed_risks : List (Article × String)
  final_email_body : Option String

/-- The state `app.invoke({"raw_headlines": []})` starts from. -/
def initState : AgentState := ⟨[], [], [], Option.none⟩

/-- The filter template of `filter_news_node` (the indentation of the
Python source literal is part of the template). -/
def wf_filter_format (headline : String) : String :=
  "Check if this headline is related to 'Financial Risk', 'Banking', or 'Economy'.\n" ++
  "        Headline: \"" ++ headline ++ "\"\n" ++
  "        Return JSON: \x7b\"is_relevant\": true/false\x7d"

/-- The analysis template of `analyze_risk_node`. -/
def wf_analysis_format (headline content : String) : String :=
  "Analyze for Credit/Market Risk.\n        Headline: \"" ++ headline ++
  "\"\n        Content: \"" ++ content ++ "\"\n        \n" ++
  "        Return JSON format:\n        \x7b\n" ++
  "            \"risk_type\": \"Market Risk/Credit Risk/None\",\n" ++
  "            \"impact\": \"High/Medium/Low\",\n" ++
  "            \"summary\": \"Short summary in Korean\"\n        \x7d\n        "

/-- The `writer_prompt` f-string of `report_node`. -/
def wf_writer_format (input_text : String) : String :=
  "\n    Based on the following risk analyses, write a cohesive email alert in Korean.\n" ++
  "    Format clearly with bullet points.\n    \n    Analyses:\n    " ++
  input_text ++ "\n    "

/-- `fetch_news_node`: on an API exception fall back to the two mock
articles; a successful call is used as-is, even when it returns zero
articles. -/
def fetch_news_node (api : Except Unit (List Article)) (st : AgentState) :
    AgentState :=
  match api with
  | Except.ok arts => ⟨arts, st.relevant_news, st.analyzed_risks, st.final_email_body⟩
  | Except.error _ => ⟨wfMockNews, st.relevant_news, st.analyzed_risks, st.final_email_body⟩

/-- Loop body of `filter_news_node`: each article's completion is
requested inside `try ... except: continue`, and the article survives
iff the lowercased completion contains the literal substring
`"is_relevant": true`. -/
def filterNewsLoop (o : Oracle) : List Article → List Event × List Article
  | [] => ([], [])
  | news :: rest =>
    let p := wf_filter_format news.title
    let (tr, rl) := filterNewsLoop o rest
    match o p with
    | Except.error _ => (Event.llmCall Stage.wfFilterStep p :: tr, rl)
    | Except.ok res =>
      if containsSub (pyLower res) ("\"is_relevant\": true") then
        (Event.llmCall Stage.wfFilterStep p :: tr, news :: rl)
      else
        (Event.llmCall Stage.wfFilterStep p :: tr, rl)

def filter_news_node (o : Oracle) (st : AgentState) : List Event × AgentState :=
  let (tr, rl) := filterNewsLoop o st.raw_headlines
  (tr, ⟨st.raw_headlines, rl, st.analyzed_risks, st.final_email_body⟩)

/-- Loop body of `analyze_risk_node`: the completion call is *not*
wrapped in `try`, so an `Except.error` aborts the whole node (and with
it the run); the remaining articles produce no events.  A surviving
completion is kept iff it contains `High` or `Medium` as a raw
substring (case-sensitive). -/
def analyzeLoop (o : Oracle) : List Article →
    List Event × Except Unit (List (Article × String))
  | [] => ([], Except.ok [])
  | news :: rest =>
    let p := wf_analysis_format news.title (contentOf news)
    match o p with
    | Except.error e => ([Event.llmCall Stage.wfAnalyzeStep p], Except.error e)
    | Except.ok res =>
      let (tr, r) := analyzeLoop o rest
      let tr2 := Event.llmCall Stage.wfAnalyzeStep p :: tr
      match r with
      | Except.error e => (tr2, Except.error e)
      | Except.ok hits =>
        if containsSub res ("High") || containsSub res ("Medium") then
          (tr2, Except.ok ((news, res) :: hits))
        else
          (tr2, Except.ok hits)

def analyze_risk_node (o : Oracle) (st : AgentState) :
    List Event × Except Unit AgentState :=
  let (tr, r) := analyzeLoop o st.relevant_news
  match r with
  | Except.error e => (tr, Except.error e)
  | Except.ok hits =>
    (tr, Except.ok ⟨st.raw_headlines, st.relevant_news, hits, st.final_email_body⟩)

/-- `report_node`: with no analyzed risks it writes the fixed
`"No significant risks detected."` body without calling the model;
otherwise it joins the raw analysis strings and asks the model for the
final email body (again without a `try`, so a client failure aborts). -/
def report_node (o : Oracle) (st : AgentState) :
    List Event × Except Unit AgentState :=
  if st.analyzed_risks.isEmpty then
    ([], Except.ok ⟨st.raw_headlines, st.relevant_news, st.analyzed_risks,
      some "No significant risks detected."⟩)
  else
    let input_text :=
      String.intercalate ("\n") (st.analyzed_risks.map (fun r => pyStr (Py.str r.2)))
    let p := wf_writer_format input_text
    match o p with
    | Except.error e => ([Event.llmCall Stage.wfWriterStep p], Except.error e)
    | Except.ok email_body =>
      ([Event.llmCall Stage.wfWriterStep p],
       Except.ok ⟨st.raw_headlines, st.relevant_news, st.analyzed_risks,
         some email_body⟩)

/-- The conditional edge after the filter node. -/
def check_relevance (st : AgentState) : String :=
  if st.relevant_news.isEmpty then "end" else "analyze"

/-- `app.invoke({"raw_headlines": []})` over the compiled graph
`fetch → filter → (check_relevance ? analyze → report : END)`.  The
result pairs the event trace (also on failure) with the final state, or
`Except.error` when an unhandled exception aborts the run. -/
def app_invoke (o : Oracle) (api : Except Unit (List Article)) :
    List Event × Except Unit AgentState :=
  let s1 := fetch_news_node api initState
  let (t2, s2) := filter_news_node o s1
  if check_relevance s2 = "end" then (t2, Except.ok s2)
  else
    let (t3, r3) := analyze_risk_node o s2
    match r3 with
    | Except.error e => (t2 ++ t3, Except.error e)
    | Except.ok s3 =>
      let (t4, r4) := report_node o s3
      match r4 with
      | Except.error e => (t2 ++ t3 ++ t4, Except.error e)
      | Except.ok s4 => (t2 ++ t3 ++ t4, Except.ok s4)

/-- Is an event a delivered alert email? -/
def isEmail : Event → Bool
  | Event.email _ _ => true
  | _ => false

/-- Is an event a completion-client call of the given stage? -/
def isCallOf (st : Stage) : Event → Bool
  | Event.llmCall st2 _ => st2 = st
  | _ => false

/-- The final state's `final_email_body`, when the run did not abort. -/
def finalBody : Except Unit AgentState → Option (Option String)
  | Except.ok st => some st.final_email_body
  | Except.error _ => Option.none

/-! ### Concrete articles, completions and oracles used as inputs -/

def aC1 : Article := ⟨"Bank fails", some "Bank news", "http://x/1", Option.none⟩

def respFilterYes : String := "\x7b\"is_relevant\": true, \"reason\": \"bank\"\x7d"

def respLowButAlert : String :=
  "\x7b\"risk_type\": \"Market Risk\", \"impact_level\": \"Low\", \"send_alert\": true\x7d"

def oC1 : Oracle := fun p =>
  if p = filter_prompt_format ("Bank fails") then Except.ok respFilterYes
  else if p = analysis_prompt_format ("Bank fails") ("Bank news") then
    Except.ok respLowButAlert
  else Except.ok ("briefing text")

def aC2 : Article := ⟨"Debt crisis", some "Debt news", "http://x/2", Option.none⟩

def respLowCredit : String :=
  "\x7b\"risk_type\": \"Credit Risk\", \"impact_level\": \"Low\", \"send_alert\": true\x7d"

def oC2 : Oracle := fun p =>
  if p = filter_prompt_format ("Debt crisis") then Except.ok respFilterYes
  else if p = analysis_prompt_format ("Debt crisis") ("Debt news") then
    Except.ok respLowCredit
  else Except.ok ("summary text")

def aC3 : Article := ⟨"K-pop", some "fun", "http://x/3", Option.none⟩

def oC3 : Oracle := fun _ => Except.ok ("\x7b\"is_relevant\": false\x7d")

def aC4 : Article := ⟨"Rates", some "rates up", "http://x/4", Option.none⟩

/-- A completion whose *parsed* `is_relevant` is `false` (JSON keeps the
last duplicate key) but which contains the raw substring the workflow
filter gate greps for. -/
def respC4 : String := "\x7b\"is_relevant\": true, \"is_relevant\": false\x7d"

def oC4 : Oracle := fun p =>
  if p = wf_filter_format ("Rates") then Except.ok respC4
  else Except.ok ("nothing")

def aN1 : Article := ⟨"t1", some "d1", "u1", Option.none⟩

def aN2 : Article := ⟨"t2", some "d2", "u2", Option.none⟩

def oC5 : Oracle := fun p =>
  if p = wf_analysis_format ("t1") ("d1") then Except.error ()
  else Except.ok ("\x7b\"is_relevant\": true\x7d")

def oC2w : Oracle := fun _ => Except.ok ("\x7b\"send_alert\": false\x7d")

def oC2w2 : Oracle := fun _ => Except.ok ("High risk")

/-! ### Helper lemmas about the workflow nodes -/

lemma filterLoop_events (o : Oracle) (arts : List Article) :
    ((filterNewsLoop o arts).1).all (isCallOf Stage.wfFilterStep) = true := by
  induction arts with
  | nil => rfl
  | cons news rest ih =>
    rcases hr : filterNewsLoop o rest with ⟨tr, rl⟩
    rw [hr] at ih
    simp only [filterNewsLoop, hr]
    cases ho : o (wf_filter_format news.title) with
    | error e =>
      simp only [List.all_cons, Bool.and_eq_true]
      exact ⟨rfl, ih⟩
    | ok res =>
      by_cases hc : containsSub (pyLower res) ("\"is_relevant\": true") = true
      · simp only [if_pos hc, List.all_cons, Bool.and_eq_true]
        exact ⟨rfl, ih⟩
      · simp only [if_neg hc, List.all_cons, Bool.and_eq_true]
        exact ⟨rfl, ih⟩

lemma filter_news_node_eq (o : Oracle) (st : AgentState) :
    filter_news_node o st = ((filterNewsLoop o st.raw_headlines).1,
      ⟨st.raw_headlines, (filterNewsLoop o st.raw_headlines).2,
       st.analyzed_risks, st.final_email_body⟩) := by
  rcases h : filterNewsLoop o st.raw_headlines with ⟨tr, rl⟩
  simp [filter_news_node, h]

lemma fetch_news_node_fields (api : Except Unit (List Article)) :
    (fetch_news_node api initState).relevant_news = [] ∧
    (fetch_news_node api initState).analyzed_risks = [] ∧
    (fetch_news_node api initState).final_email_body = Option.none := by
  cases api <;> exact ⟨rfl, rfl, rfl⟩

lemma analyze_risk_node_ok (o : Oracle) (st : AgentState) (t3 : List Event)
    (s3 : AgentState) (h : analyze_risk_node o st = (t3, Except.ok s3)) :
    s3.raw_headlines = st.raw_headlines ∧ s3.relevant_news = st.relevant_news ∧
    s3.final_email_body = st.final_email_body := by
  unfold analyze_risk_node at h
  rcases hr : analyzeLoop o st.relevant_news with ⟨tr, r⟩
  rw [hr] at h
  cases r with
  | error e => simp at h
  | ok hits =>
    dsimp only at h
    simp only [Prod.mk.injEq, Except.ok.injEq] at h
    obtain ⟨-, hs⟩ := h
    subst hs
    exact ⟨rfl, rfl, rfl⟩

lemma report_node_ok (o : Oracle) (st : AgentState) (t4 : List Event)
    (s4 : AgentState) (h : report_node o st = (t4, Except.ok s4)) :
    s4.analyzed_risks = st.analyzed_risks ∧ s4.relevant_news = st.relevant_news ∧
    (st.analyzed_risks = [] →
      s4.final_email_body = some "No significant risks detected.") := by
  unfold report_node at h
  by_cases he : st.analyzed_risks.isEmpty = true
  · rw [if_pos he] at h
    simp only [Prod.mk.injEq, Except.ok.injEq] at h
    obtain ⟨-, hs⟩ := h
    subst hs
    exact ⟨rfl, rfl, fun _ => rfl⟩
  · rw [if_neg he] at h
    dsimp only at h
    cases ho : o (wf_writer_format (String.intercalate ("\n")
        (st.analyzed_risks.map (fun r => pyStr (Py.str r.2))))) with
    | error e => rw [ho] at h; simp at h
    | ok body =>
      rw [ho] at h
      simp only [Prod.mk.injEq, Except.ok.injEq] at h
      obtain ⟨-, hs⟩ := h
      subst hs
      refine ⟨rfl, rfl, fun h0 => absurd ?_ he⟩
      simp [h0]

/-! ### Claim theorems -/

/-- C6 (confirmed): `parse_json_response` strips the code-fence markers
and whitespace and strictly JSON-decodes; every decode failure —
including the empty string and `"not json"` — yields the `None` parse
failure value instead of an escaping exception (the function is total),
and the fenced object parses to the mapping `{is_relevant: true}`. -/
theorem c6_parser_robustness :
    parse_json_response ("") = Py.none ∧
    parse_json_response ("not json") = Py.none ∧
    parse_json_response ("```json\n\x7b\"is_relevant\": true\x7d\n```")
      = Py.dict [("is_relevant", Py.bool true)] ∧
    (∀ s : String, jsonDecode (cleanResponse s) = Option.none →
      parse_json_response s = Py.none) := by
  refine ⟨rfl, rfl, rfl, ?_⟩
  intro s h
  unfold parse_json_response
  rw [h]

/-- Witness for C6: the universally quantified conjunct applied at the
concrete failing input `"not json"`. -/
theorem c6_parser_robustness_witness : parse_json_response ("not json") = Py.none :=
  c6_parser_robustness.2.2.2 ("not json") (by rfl)

/-- C9 (confirmed): for every input whose cleaned text decodes
successfully, `parse_json_response` returns the decoded value unchanged
— in particular a non-object value such as `[1, 2]`, `true` or `null`
is returned as-is, never as a `ParseError`; and `"null"` decodes to the
very value returned on parse failure, so a `"null"` completion and a
malformed completion are indistinguishable to callers. -/
theorem c9_nonobject_json :
    parse_json_response ("[1, 2]") = Py.list [Py.int 1, Py.int 2] ∧
    parse_json_response ("true") = Py.bool true ∧
    parse_json_response ("null") = Py.none ∧
    parse_json_response ("definitely not json") = Py.none ∧
    parse_json_response ("null") = parse_json_response ("definitely not json") ∧
    (∀ (s : String) (v : Py), jsonDecode (cleanResponse s) = some v →
      parse_json_response s = v) := by
  refine ⟨rfl, rfl, rfl, rfl, rfl, ?_⟩
  intro s v h
  unfold parse_json_response
  rw [h]

/-- Witness for C9: the universally quantified conjunct applied at the
concrete non-object input `"[1, 2]"`, whose cleaned text decodes to the
two-element list that the function then returns unchanged. -/
theorem c9_nonobject_json_witness :
    jsonDecode (cleanResponse ("[1, 2]")) = some (Py.list [Py.int 1, Py.int 2]) ∧
    parse_json_response ("[1, 2]") = Py.list [Py.int 1, Py.int 2] :=
  ⟨rfl, c9_nonobject_json.2.2.2.2.2 ("[1, 2]") (Py.list [Py.int 1, Py.int 2]) (by rfl)⟩

/-- C7 (confirmed): when the news-retrieval call raises, `fetch_news`
returns the fixed three-article fixture — which contains the financially
relevant central-bank headline and the irrelevant iPhone headline — and
the failure is absorbed: the pipeline simply runs over the fixture. -/
theorem c7_fixture_fallback :
    fetch_news (Except.error ()) = mockNews ∧
    2 ≤ mockNews.length ∧
    (∃ a, a ∈ mockNews ∧
      a.title = "Central Bank announces surprise 0.5% interest rate hike due to inflation fears") ∧
    (∃ a, a ∈ mockNews ∧
      a.title = "New iPhone 16 features leaked ahead of launch") ∧
    (∀ o : Oracle, run_early_warning_system o (Except.error ()) = runList o mockNews) := by
  refine ⟨rfl, by simp [mockNews], ?_, ?_, fun o => rfl⟩
  · exact ⟨⟨"Central Bank announces surprise 0.5% interest rate hike due to inflation fears",
      some "The monetary policy committee decided to raise rates immediately. Markets are tumbling.",
      "http://test-news.com/1", some "Global Finance"⟩, by simp [mockNews], rfl⟩
  · exact ⟨⟨"New iPhone 16 features leaked ahead of launch",
      some "Apple's new phone will feature a better camera and AI capabilities.",
      "http://test-news.com/2", some "Tech Daily"⟩, by simp [mockNews], rfl⟩

/-- C10 (confirmed): the workflow uses its mock fixture only when the
retrieval call raises — a successful call with zero articles leaves
`raw_headlines` empty and the run terminates at the no-relevant-news
branch with nothing analyzed and no body written — whereas the linear
script's `fetch_news` falls back to its fixture also on a successful
but empty result. -/
theorem c10_fallback_difference :
    (∀ o : Oracle,
      fetch_news_node (Except.ok []) initState
        = (⟨[], [], [], Option.none⟩ : AgentState) ∧
      app_invoke o (Except.ok [])
        = ([], Except.ok (⟨[], [], [], Option.none⟩ : AgentState))) ∧
    fetch_news_node (Except.error ()) initState
      = (⟨wfMockNews, [], [], Option.none⟩ : AgentState) ∧
    fetch_news (Except.ok []) = mockNews :=
  ⟨fun _ => ⟨rfl, rfl⟩, rfl, rfl⟩

/-- C1 (refuted as stated): the linear orchestrator trusts the
model-emitted `send_alert` boolean.  On an analysis completion with
`send_alert = true` and `impact_level = "Low"` the item is *not*
rejected: an alert email is emitted. -/
theorem c1_counterexample_low_alert :
    pyGetD (parse_json_response respLowButAlert) ("send_alert") = Py.bool true ∧
    pyGetD (parse_json_response respLowButAlert) ("impact_level") = Py.str "Low" ∧
    (run_early_warning_system oC1 (Except.ok [aC1])).any isEmail = true :=
  ⟨rfl, rfl, rfl⟩

/-- C1 (amended): the orchestrator performs no re-derivation or
validation of the documented invariant; Stage 2 gates solely on the
truthiness of `send_alert`, so whenever the filter accepts, the
analysis completion parses to an accepted record whose `impact_level`
is `"Low"`, and the summary call succeeds, an alert is still emitted. -/
theorem c1_amended_no_validation (o : Oracle) (a : Article) (fraw araw s : String)
    (h1 : o (filter_prompt_format a.title) = Except.ok fraw)
    (h2 : filterAccepts (parse_json_response fraw) = true)
    (h3 : o (analysis_prompt_format a.title (contentOf a)) = Except.ok araw)
    (h4 : analyzeAccepts (parse_json_response araw) = true)
    (_h5 : pyGetD (parse_json_response araw) ("impact_level") = Py.str "Low")
    (h6 : o (summary_prompt_format a.title (contentOf a)
      (pyStr (pyGetD (parse_json_response araw) ("risk_type")))) = Except.ok s) :
    Event.email
      ("[Risk Alert] " ++ pyStr (pyGetD (parse_json_response araw) ("risk_type")) ++ " Detected")
      (s ++ "\n\n[Original Source]: " ++ a.url) ∈ processArticle o a := by
  simp [processArticle, h1, h2, h3, h4, h6]

/-- Witness for C1's amended theorem at the concrete inputs of the
counterexample run. -/
theorem c1_amended_witness :
    Event.email ("[Risk Alert] Market Risk Detected")
      ("briefing text" ++ "\n\n[Original Source]: " ++ "http://x/1")
      ∈ processArticle oC1 aC1 :=
  c1_amended_no_validation oC1 aC1 respFilterYes respLowButAlert ("briefing text")
    (by rfl) (by rfl) (by rfl) (by rfl) (by rfl) (by rfl)

/-- C2 (refuted as stated): an article whose analysis completion parses
with `impact_level = "Low"` can still produce an alert in the linear
pipeline, because the gate reads only `send_alert`. -/
theorem c2_counterexample_low_alert :
    pyGetD (parse_json_response respLowCredit) ("impact_level") = Py.str "Low" ∧
    pyGetD (parse_json_response respLowCredit) ("send_alert") = Py.bool true ∧
    (run_early_warning_system oC2 (Except.ok [aC2])).any isEmail = true :=
  ⟨rfl, rfl, rfl⟩

/-- C2 (amended): in the linear pipeline no alert is produced for an
article whose analysis completion fails to parse or parses to a record
the `send_alert` gate rejects (`impact_level` itself is not consulted,
so `Low` with `send_alert = true` still alerts); in the workflow, an
article survives the analysis stage iff its raw completion contains
`"High"` or `"Medium"` as a substring, with no parsing at all. -/
theorem c2_amended_gate (o : Oracle) :
    (∀ a : Article,
      (∀ araw, o (analysis_prompt_format a.title (contentOf a)) = Except.ok araw →
        analyzeAccepts (parse_json_response araw) = false) →
      ∀ subj body, Event.email subj body ∉ processArticle o a) ∧
    (∀ (arts : List Article) (tr : List Event) (hits : List (Article × String)),
      analyzeLoop o arts = (tr, Except.ok hits) →
      ∀ h2, h2 ∈ hits →
        (containsSub h2.2 ("High") || containsSub h2.2 ("Medium")) = true) := by
  constructor
  · intro a h subj body
    simp only [processArticle]
    cases hof : o (filter_prompt_format a.title) with
    | error e => simp
    | ok fraw =>
      by_cases hfa : filterAccepts (parse_json_response fraw) = false
      · simp [hfa]
      · simp only [if_neg hfa]
        cases hoa : o (analysis_prompt_format a.title (contentOf a)) with
        | error e => simp
        | ok araw =>
          have hra := h araw hoa
          simp [hra]
  · intro arts
    induction arts with
    | nil =>
      intro tr hits h hit hmem
      simp only [analyzeLoop, Prod.mk.injEq, Except.ok.injEq] at h
      obtain ⟨-, hh⟩ := h
      subst hh
      simp at hmem
    | cons news rest ih =>
      intro tr hits h hit hmem
      simp only [analyzeLoop] at h
      cases hoa : o (wf_analysis_format news.title (contentOf news)) with
      | error e => simp [hoa] at h
      | ok res =>
        simp only [hoa] at h
        rcases hr : analyzeLoop o rest with ⟨tr2, r2⟩
        simp only [hr] at h
        cases r2 with
        | error e => simp at h
        | ok hits2 =>
          dsimp only at h
          by_cases hc : (containsSub res ("High") || containsSub res ("Medium")) = true
          · rw [if_pos hc] at h
            simp only [Prod.mk.injEq, Except.ok.injEq] at h
            obtain ⟨-, hh⟩ := h
            subst hh
            rcases List.mem_cons.mp hmem with hEq | hTail
            · subst hEq; exact hc
            · exact ih tr2 hits2 hr hit hTail
          · rw [if_neg hc] at h
            simp only [Prod.mk.injEq, Except.ok.injEq] at h
            obtain ⟨-, hh⟩ := h
            subst hh
            exact ih tr2 hits2 hr hit hmem

/-- Witness for C2's amended theorem: a client whose analysis
completions carry `send_alert = false` yields no alert for the
concrete article, and a concrete workflow analysis survivor indeed
contains the `High` substring. -/
theorem c2_amended_witness :
    (Event.email ("subj") ("body") ∉ processArticle oC2w aC2) ∧
    (∀ hit, hit ∈ [(aN1, "High risk")] →
      (containsSub hit.2 ("High") || containsSub hit.2 ("Medium")) = true) :=
  ⟨(c2_amended_gate oC2w).1 aC2
      (fun araw h => by injection h with hh; exact hh ▸ rfl) ("subj") ("body"),
   (c2_amended_gate oC2w2).2 [aN1]
      [Event.llmCall Stage.wfAnalyzeStep (wf_analysis_format ("t1") ("d1"))]
      [(aN1, "High risk")] (by rfl)⟩

/-- C3 (refuted as stated): a batch where the Filter node accepts zero
articles terminates via the conditional edge straight to `END`: the
Analyze/Summarize stages are indeed skipped, but *no* terminal "no
risk" artifact is produced — `final_email_body` is never written. -/
theorem c3_counterexample_silence :
    finalBody (app_invoke oC3 (Except.ok [aC3])).2 = some Option.none ∧
    (app_invoke oC3 (Except.ok [aC3])).1.all (isCallOf Stage.wfFilterStep) = true :=
  ⟨rfl, rfl⟩

/-- C3 (amended): with zero Filter survivors the workflow short-circuits
past Analyze, Summarize and Report — its trace holds only filter-stage
client calls — but ends with `final_email_body` unset; the
`"No significant risks detected."` artifact is produced exactly in runs
where Filter accepted at least one article and Analyze kept none. -/
theorem c3_amended_short_circuit (o : Oracle) (api : Except Unit (List Article))
    (t : List Event) (st : AgentState)
    (h : app_invoke o api = (t, Except.ok st)) :
    (st.relevant_news = [] →
      st.final_email_body = Option.none ∧
      t.all (isCallOf Stage.wfFilterStep) = true) ∧
    (st.relevant_news ≠ [] → st.analyzed_risks = [] →
      st.final_email_body = some "No significant risks detected.") := by
  obtain ⟨hrel1, hana1, hbody1⟩ := fetch_news_node_fields api
  simp only [app_invoke] at h
  rw [filter_news_node_eq] at h
  dsimp only at h
  by_cases hend :
      (filterNewsLoop o (fetch_news_node api initState).raw_headlines).2.isEmpty = true
  · have hcr : check_relevance ⟨(fetch_news_node api initState).raw_headlines,
        (filterNewsLoop o (fetch_news_node api initState).raw_headlines).2,
        (fetch_news_node api initState).analyzed_risks,
        (fetch_news_node api initState).final_email_body⟩ = "end" := by
      simp [check_relevance, hend]
    rw [if_pos hcr] at h
    simp only [Prod.mk.injEq, Except.ok.injEq] at h
    obtain ⟨ht, hst⟩ := h
    subst ht
    subst hst
    constructor
    · intro _
      exact ⟨hbody1, filterLoop_events o (fetch_news_node api initState).raw_headlines⟩
    · intro hne _
      exact absurd (List.isEmpty_iff.mp hend) hne
  · have hcr : ¬ (check_relevance ⟨(fetch_news_node api initState).raw_headlines,
        (filterNewsLoop o (fetch_news_node api initState).raw_headlines).2,
        (fetch_news_node api initState).analyzed_risks,
        (fetch_news_node api initState).final_email_body⟩ = "end") := by
      simp [check_relevance, hend]
    rw [if_neg hcr] at h
    rcases han : analyze_risk_node o ⟨(fetch_news_node api initState).raw_headlines,
        (filterNewsLoop o (fetch_news_node api initState).raw_headlines).2,
        (fetch_news_node api initState).analyzed_risks,
        (fetch_news_node api initState).final_email_body⟩ with ⟨t3, r3⟩
    rw [han] at h
    cases r3 with
    | error e => simp at h
    | ok s3 =>
      dsimp only at h
      rcases hrep : report_node o s3 with ⟨t4, r4⟩
      rw [hrep] at h
      cases r4 with
      | error e => simp at h
      | ok s4 =>
        dsimp only at h
        simp only [Prod.mk.injEq, Except.ok.injEq] at h
        obtain ⟨-, hst⟩ := h
        subst hst
        obtain ⟨h3raw, h3rel, h3body⟩ := analyze_risk_node_ok o _ t3 s3 han
        obtain ⟨h4ana, h4rel, h4body⟩ := report_node_ok o s3 t4 s4 hrep
        constructor
        · intro h0
          rw [h4rel, h3rel] at h0
          dsimp only at h0
          rw [h0] at hend
          exact absurd rfl hend
        · intro _ h0
          exact h4body (h4ana ▸ h0)

/-- Witness for C3's amended theorem, at the concrete zero-survivor run
of the counterexample. -/
theorem c3_amended_witness :
    (⟨[aC3], [], [], Option.none⟩ : AgentState).final_email_body = Option.none ∧
    ([Event.llmCall Stage.wfFilterStep (wf_filter_format ("K-pop"))]).all
      (isCallOf Stage.wfFilterStep) = true :=
  (c3_amended_short_circuit oC3 (Except.ok [aC3])
      [Event.llmCall Stage.wfFilterStep (wf_filter_format ("K-pop"))]
      ⟨[aC3], [], [], Option.none⟩ (by rfl)).1 (by rfl)

/-- C4 (refuted as stated): the workflow's filter gate greps the raw
completion instead of consulting the parsed field.  A completion with a
duplicate key parses (as `json.loads` does) to `is_relevant = false`,
yet the raw text contains `"is_relevant": true`, so the article
proceeds to the Analyze stage and its analysis prompt is sent to the
completion client. -/
theorem c4_counterexample_substring_gate :
    parse_json_response respC4
      = Py.dict [("is_relevant", Py.bool true), ("is_relevant", Py.bool false)] ∧
    pyGetD (parse_json_response respC4) ("is_relevant") = Py.bool false ∧
    (app_invoke oC4 (Except.ok [aC4])).1.any (isCallOf Stage.wfAnalyzeStep) = true :=
  ⟨rfl, rfl, rfl⟩

/-- C4 (amended): in the linear pipeline the property holds — an
article whose filter completion parses to a record rejected by the
`is_relevant` gate never has its analysis prompt formatted or sent —
while the workflow's gate is the raw substring test refuted above. -/
theorem c4_amended_filter_gate (o : Oracle) (a : Article) (fraw : String)
    (h1 : o (filter_prompt_format a.title) = Except.ok fraw)
    (h2 : filterAccepts (parse_json_response fraw) = false) :
    ∀ p, Event.llmCall Stage.analyzeStep p ∉ processArticle o a := by
  intro p
  simp [processArticle, h1, h2]

/-- Witness for C4's amended theorem at a concrete rejected article. -/
theorem c4_amended_witness :
    Event.llmCall Stage.analyzeStep (analysis_prompt_format ("K-pop") ("fun"))
      ∉ processArticle oC3 aC3 :=
  c4_amended_filter_gate oC3 aC3 ("\x7b\"is_relevant\": false\x7d") (by rfl) (by rfl)
    (analysis_prompt_format ("K-pop") ("fun"))

/-- C5 (refuted as stated): a completion-client failure while analyzing
the first article of a two-article workflow batch aborts the whole run:
the second article's analysis prompt is never sent, and no alert or
report is produced. -/
theorem c5_counterexample_batch_abort :
    (app_invoke oC5 (Except.ok [aN1, aN2])).2 = Except.error () ∧
    Event.llmCall Stage.wfAnalyzeStep (wf_analysis_format ("t2") ("d2"))
      ∉ (app_invoke oC5 (Except.ok [aN1, aN2])).1 ∧
    (app_invoke oC5 (Except.ok [aN1, aN2])).1.any isEmail = false := by
  refine ⟨rfl, ?_, rfl⟩
  decide

/-- C5 (amended): per-item fault isolation holds in the linear script —
the batch trace splits around any article, so failures while processing
one article never change how the others are processed — and in the
workflow's Filter node, which records exactly one client call per
article whatever the client does; the workflow's Analyze node, by
contrast, is the aborting stage refuted above. -/
theorem c5_amended_isolation :
    (∀ (o : Oracle) (xs : List Article) (b : Article) (ys : List Article),
      runList o (xs ++ b :: ys) = runList o xs ++ processArticle o b ++ runList o ys) ∧
    (∀ (o : Oracle) (arts : List Article),
      (filterNewsLoop o arts).1.length = arts.length) := by
  constructor
  · intro o xs b ys
    induction xs with
    | nil => simp [runList]
    | cons x rest ih => simp [runList, ih]
  · intro o arts
    induction arts with
    | nil => rfl
    | cons news rest ih =>
      rcases hr : filterNewsLoop o rest with ⟨tr, rl⟩
      rw [hr] at ih
      simp only [filterNewsLoop, hr]
      cases ho : o (wf_filter_format news.title) with
      | error e => simpa using ih
      | ok res =>
        by_cases hc : containsSub (pyLower res) ("\"is_relevant\": true") = true
        · simp only [if_pos hc, List.length_cons]
          simpa using ih
        · simp only [if_neg hc, List.length_cons]
          simpa using ih

/-- C8 (confirmed): the linear run is the in-order concatenation of
one trace segment per fetched article, and each article's segment
performs its stages strictly in order Filter, then possibly Analyze,
then possibly Summarize and the alert — each stage at most once, so no
stage is re-run after a rejection or a delivery. -/
theorem c8_sequential_order (o : Oracle) (arts : List Article) :
    runList o arts = (arts.map (processArticle o)).flatten ∧
    ∀ a : Article,
      processArticle o a
          = [Event.llmCall Stage.filterStep (filter_prompt_format a.title)] ∨
      processArticle o a
          = [Event.llmCall Stage.filterStep (filter_prompt_format a.title),
             Event.llmCall Stage.analyzeStep (analysis_prompt_format a.title (contentOf a))] ∨
      (∃ sp, processArticle o a
          = [Event.llmCall Stage.filterStep (filter_prompt_format a.title),
             Event.llmCall Stage.analyzeStep (analysis_prompt_format a.title (contentOf a)),
             Event.llmCall Stage.summaryStep sp]) ∨
      (∃ sp subj body, processArticle o a
          = [Event.llmCall Stage.filterStep (filter_prompt_format a.title),
             Event.llmCall Stage.analyzeStep (analysis_prompt_format a.title (contentOf a)),
             Event.llmCall Stage.summaryStep sp,
             Event.email subj body]) := by
  constructor
  · induction arts with
    | nil => rfl
    | cons x rest ih => simp [runList, ih]
  · intro a
    simp only [processArticle]
    cases hof : o (filter_prompt_format a.title) with
    | error e => exact Or.inl rfl
    | ok fraw =>
      dsimp only
      by_cases hfa : filterAccepts (parse_json_response fraw) = false
      · rw [if_pos hfa]
        exact Or.inl rfl
      · rw [if_neg hfa]
        cases hoa : o (analysis_prompt_format a.title (contentOf a)) with
        | error e => exact Or.inr (Or.inl rfl)
        | ok araw =>
          dsimp only
          by_cases han : analyzeAccepts (parse_json_response araw) = false
          · rw [if_pos han]
            exact Or.inr (Or.inl rfl)
          · rw [if_neg han]
            cases hos : o (summary_prompt_format a.title (contentOf a)
                (pyStr (pyGetD (parse_json_response araw) ("risk_type")))) with
            | error e => exact Or.inr (Or.inr (Or.inl ⟨_, rfl⟩))
            | ok s => exact Or.inr (Or.inr (Or.inr ⟨_, _, _, rfl⟩))

